import Mathlib

/-!
Verification of the warehouse domain layer (warehouse_final.py).

Shallow embedding conventions:
- Python `Decimal` amounts are modelled as `ℚ` (arbitrary-precision exact
  arithmetic), Python `int` as `ℤ`.
- Methods that can `raise ValueError` are modelled as functions returning
  `Except String α`; a raised exception is `Except.error msg` and leaves the
  caller-held state untouched (the embedding is pure, so failure produces no
  new state).
- Python `dict` (insertion ordered) is modelled as an association list; updates
  replace the value in place, preserving position, exactly as CPython dicts do.
- Observers are identified by `ℕ` tokens; a quantity mutation returns both the
  new product state and the ordered list of `update` calls it issued.
-/

-- ---------- Value Objects ----------

/-- `Money` value object: `{amount: Decimal, currency: str = "USD"}`. -/
structure Money where
  amount : ℚ
  currency : String
deriving DecidableEq, Repr

/-- `Money.__add__`: requires equal currency, else raises. -/
def Money.add (m other : Money) : Except String Money :=
  if m.currency ≠ other.currency then
    Except.error "Cannot add money with different currencies"
  else
    Except.ok (Money.mk (m.amount + other.amount) m.currency)

/-- `Money.__sub__`: requires equal currency, else raises. -/
def Money.sub (m other : Money) : Except String Money :=
  if m.currency ≠ other.currency then
    Except.error "Cannot subtract money with different currencies"
  else
    Except.ok (Money.mk (m.amount - other.amount) m.currency)

/-- `Money.__mul__(quantity: int)`: total, never raises. -/
def Money.mul (m : Money) (quantity : ℤ) : Money :=
  Money.mk (m.amount * (quantity : ℚ)) m.currency

/-- `Money.__truediv__(divisor: int)`: raises on division by zero. -/
def Money.div (m : Money) (divisor : ℤ) : Except String Money :=
  if divisor = 0 then
    Except.error "Cannot divide by zero"
  else
    Except.ok (Money.mk (m.amount / (divisor : ℚ)) m.currency)

-- ---------- Enums ----------

/-- `OrderStatus` lifecycle enumeration. -/
inductive OrderStatus where
  | DRAFT
  | PENDING
  | CONFIRMED
  | PROCESSING
  | SHIPPED
  | DELIVERED
  | CANCELLED
  | REFUNDED
deriving DecidableEq, Repr, Fintype

/-- `OrderStatus.can_transition`: the valid-transitions dictionary. -/
def OrderStatus.can_transition (current new : OrderStatus) : Bool :=
  let valid : List OrderStatus :=
    match current with
    | OrderStatus.DRAFT => [OrderStatus.PENDING, OrderStatus.CANCELLED]
    | OrderStatus.PENDING => [OrderStatus.CONFIRMED, OrderStatus.CANCELLED]
    | OrderStatus.CONFIRMED => [OrderStatus.PROCESSING, OrderStatus.CANCELLED]
    | OrderStatus.PROCESSING => [OrderStatus.SHIPPED, OrderStatus.CANCELLED]
    | OrderStatus.SHIPPED => [OrderStatus.DELIVERED]
    | OrderStatus.DELIVERED => [OrderStatus.REFUNDED]
    | OrderStatus.CANCELLED => []
    | OrderStatus.REFUNDED => []
  new ∈ valid

/-- `OrderStatus.is_terminal_status`. -/
def OrderStatus.is_terminal_status (status : OrderStatus) : Bool :=
  status ∈ [OrderStatus.DELIVERED, OrderStatus.CANCELLED, OrderStatus.REFUNDED]

/-- The transition graph exactly as the specification document draws it
(spec refinement target, written from the spec text, not from the code):
DRAFT→{PENDING,CANCELLED}; PENDING→{CONFIRMED,CANCELLED};
CONFIRMED→{PROCESSING,CANCELLED}; PROCESSING→{SHIPPED,CANCELLED};
SHIPPED→{DELIVERED}; DELIVERED→{REFUNDED}. -/
def specTransitionEdges : List (OrderStatus × OrderStatus) :=
  [(OrderStatus.DRAFT, OrderStatus.PENDING),
   (OrderStatus.DRAFT, OrderStatus.CANCELLED),
   (OrderStatus.PENDING, OrderStatus.CONFIRMED),
   (OrderStatus.PENDING, OrderStatus.CANCELLED),
   (OrderStatus.CONFIRMED, OrderStatus.PROCESSING),
   (OrderStatus.CONFIRMED, OrderStatus.CANCELLED),
   (OrderStatus.PROCESSING, OrderStatus.SHIPPED),
   (OrderStatus.PROCESSING, OrderStatus.CANCELLED),
   (OrderStatus.SHIPPED, OrderStatus.DELIVERED),
   (OrderStatus.DELIVERED, OrderStatus.REFUNDED)]

-- ---------- Pricing Strategies ----------

/-- `BulkDiscountPricing(discount_rate, min_quantity)`. -/
structure BulkDiscountPricing where
  discount_rate : ℚ
  min_quantity : ℤ
deriving DecidableEq, Repr

/-- `BulkDiscountPricing.calculate_total(price, quantity)`. -/
def BulkDiscountPricing.calculate_total (s : BulkDiscountPricing)
    (price : ℚ) (quantity : ℤ) : ℚ :=
  if quantity ≥ s.min_quantity then
    (price * (quantity : ℚ)) * (1 - s.discount_rate)
  else
    price * (quantity : ℚ)

-- ---------- Product Entity ----------

/-- A quantity-mutation notification event: one `observer.update` call,
carrying `(observer, product_id, product_name, quantity, threshold)`. -/
def StockAlert : Type := ℕ × String × String × ℤ × ℤ
deriving instance DecidableEq, Repr for StockAlert

/-- `Product` entity: the fields the business rules read and write.
Observers are identified by ℕ tokens kept in attachment order. -/
structure Product where
  id : String
  name : String
  purchase_price : Money
  selling_price : Money
  quantity : ℤ
  observers : List ℕ
deriving DecidableEq, Repr

/-- `Product.MIN_STOCK_LEVEL = 10`. -/
def Product.MIN_STOCK_LEVEL : ℤ := 10

/-- `Product.MAX_STOCK_LEVEL = 1000`. -/
def Product.MAX_STOCK_LEVEL : ℤ := 1000

/-- `Product._validate`: the construction-time business-rule check, with the
checks in source order and the source error messages. -/
def Product.validate (p : Product) : Except String Unit :=
  if p.name.length < 2 then
    Except.error "Product name must be at least 2 characters"
  else if p.quantity < 0 then
    Except.error "Quantity cannot be negative"
  else if p.quantity > Product.MAX_STOCK_LEVEL then
    Except.error "Quantity cannot exceed 1000"
  else if p.selling_price.amount ≤ 0 then
    Except.error "Selling price must be positive"
  else if p.purchase_price.amount ≤ 0 then
    Except.error "Purchase price must be positive"
  else if p.selling_price.amount < p.purchase_price.amount then
    Except.error "Selling price cannot be less than purchase price"
  else
    Except.ok ()

/-- `Product.__init__`: store the fields, then run `_validate`. -/
def Product.construct (id name : String) (purchase_price selling_price : Money)
    (quantity : ℤ) : Except String Product :=
  (Product.mk id name purchase_price selling_price quantity []).validate.map
    (fun _ => Product.mk id name purchase_price selling_price quantity [])

/-- `Product.name` setter: rejects names shorter than 2 characters. -/
def Product.set_name (p : Product) (value : String) : Except String Product :=
  if value.length < 2 then
    Except.error "Product name must be at least 2 characters"
  else
    Except.ok { p with name := value }

/-- `Product.purchase_price` setter: rejects only non-positive amounts. -/
def Product.set_purchase_price (p : Product) (value : Money) :
    Except String Product :=
  if value.amount ≤ 0 then
    Except.error "Purchase price must be positive"
  else
    Except.ok { p with purchase_price := value }

/-- `Product.selling_price` setter: rejects non-positive amounts and amounts
below the current purchase price. -/
def Product.set_selling_price (p : Product) (value : Money) :
    Except String Product :=
  if value.amount ≤ 0 then
    Except.error "Selling price must be positive"
  else if value.amount < p.purchase_price.amount then
    Except.error "Selling price cannot be less than purchase price"
  else
    Except.ok { p with selling_price := value }

/-- `Product.attach_observer`: appends unless already attached. -/
def Product.attach_observer (p : Product) (observer : ℕ) : Product :=
  if observer ∈ p.observers then p
  else { p with observers := p.observers ++ [observer] }

/-- `Product.detach_observer`: removes the first occurrence, if attached. -/
def Product.detach_observer (p : Product) (observer : ℕ) : Product :=
  if observer ∈ p.observers then
    { p with observers := p.observers.erase observer }
  else p

/-- `Product.is_low_stock`: `quantity <= MIN_STOCK_LEVEL`. -/
def Product.is_low_stock (p : Product) : Bool :=
  p.quantity ≤ Product.MIN_STOCK_LEVEL

/-- `Product._notify_observers`: when low on stock, one `update` call per
attached observer, in attachment order, with `(id, name, quantity, 10)`. -/
def Product.notify_observers (p : Product) : List StockAlert :=
  if p.is_low_stock then
    p.observers.map (fun observer =>
      (observer, p.id, p.name, p.quantity, Product.MIN_STOCK_LEVEL))
  else []

/-- `Product.increase_quantity`: validates, mutates, then notifies. The result
pairs the new state with the `update` calls issued. -/
def Product.increase_quantity (p : Product) (amount : ℤ) :
    Except String (Product × List StockAlert) :=
  if amount < 0 then
    Except.error "Amount must be positive"
  else if p.quantity + amount > Product.MAX_STOCK_LEVEL then
    Except.error "Cannot exceed max stock level of 1000"
  else
    let p2 := { p with quantity := p.quantity + amount }
    Except.ok (p2, p2.notify_observers)

/-- `Product.decrease_quantity`: validates, mutates, then notifies. -/
def Product.decrease_quantity (p : Product) (amount : ℤ) :
    Except String (Product × List StockAlert) :=
  if amount < 0 then
    Except.error "Amount must be positive"
  else if p.quantity - amount < 0 then
    Except.error "Insufficient stock"
  else
    let p2 := { p with quantity := p.quantity - amount }
    Except.ok (p2, p2.notify_observers)

/-- `Product.can_fulfill_order(quantity)`: `self._quantity >= quantity`. -/
def Product.can_fulfill_order (p : Product) (quantity : ℤ) : Bool :=
  p.quantity ≥ quantity

-- ---------- OrderItem Value Object ----------

/-- `OrderItem` dataclass: line item with the derived `total_price` field,
recomputed by `__post_init__` and after every mutation. -/
structure OrderItem where
  product_id : String
  product_name : String
  unit_price : Money
  quantity : ℤ
  total_price : Money
deriving DecidableEq, Repr

/-- `OrderItem.calculate_total`: `unit_price * quantity`. -/
def OrderItem.calculate_total (it : OrderItem) : Money :=
  it.unit_price.mul it.quantity

/-- `OrderItem` construction (`__init__` + `__post_init__` validation). -/
def OrderItem.make (product_id product_name : String) (unit_price : Money)
    (quantity : ℤ) : Except String OrderItem :=
  if quantity ≤ 0 then
    Except.error "Quantity must be positive"
  else if unit_price.amount ≤ 0 then
    Except.error "Unit price must be positive"
  else
    Except.ok (OrderItem.mk product_id product_name unit_price quantity
      (unit_price.mul quantity))

/-- `OrderItem.increase_quantity`: rejects non-positive amounts, then bumps
the quantity and recomputes `total_price`. -/
def OrderItem.increase_quantity (it : OrderItem) (amount : ℤ) :
    Except String OrderItem :=
  if amount ≤ 0 then
    Except.error "Amount must be positive"
  else
    let q2 := it.quantity + amount
    Except.ok { it with quantity := q2, total_price := it.unit_price.mul q2 }

-- ---------- Order Entity ----------

/-- Insertion-ordered dictionary lookup (`product_id in self._items` /
`self._items[product_id]`). -/
def lookupItem : List (String × OrderItem) → String → Option OrderItem
  | [], _ => none
  | (k, v) :: rest, pid => if k = pid then some v else lookupItem rest pid

/-- In-place dictionary value update: CPython dicts keep the key position. -/
def setItem : List (String × OrderItem) → String → OrderItem →
    List (String × OrderItem)
  | [], _, _ => []
  | (k, v) :: rest, pid, it =>
      if k = pid then (k, it) :: rest else (k, v) :: setItem rest pid it

/-- Dictionary key deletion (`del self._items[product_id]`). -/
def eraseItem : List (String × OrderItem) → String → List (String × OrderItem)
  | [], _ => []
  | (k, v) :: rest, pid => if k = pid then rest else (k, v) :: eraseItem rest pid

/-- `Order` entity: the fields the business rules read and write. `items` is
the insertion-ordered `product_id -> OrderItem` mapping. -/
structure Order where
  id : String
  customer_name : String
  customer_email : String
  status : OrderStatus
  items : List (String × OrderItem)
  notes : String
deriving DecidableEq, Repr

/-- `Order.__init__` stores the fields, sets `status = DRAFT`, empty items,
then runs `_validate` (name length, email contains a `@`). -/
def Order.construct (id customer_name customer_email : String) :
    Except String Order :=
  let o : Order :=
    Order.mk id customer_name customer_email OrderStatus.DRAFT [] ""
  if customer_name.length < 2 then
    Except.error "Customer name must be at least 2 characters"
  else if ¬ customer_email.toList.contains (Char.ofNat 64) then
    Except.error "Invalid email address"
  else
    Except.ok o

/-- `Order.add_item(product, quantity)`: stock check, then either bump the
existing line item or append a fresh one. No status check appears in the
source. -/
def Order.add_item (o : Order) (product : Product) (quantity : ℤ) :
    Except String Order :=
  if ¬ product.can_fulfill_order quantity then
    Except.error ("Product " ++ product.name ++ " cannot fulfill order")
  else
    match lookupItem o.items product.id with
    | some it =>
        (it.increase_quantity quantity).map
          (fun it2 => { o with items := setItem o.items product.id it2 })
    | none =>
        (OrderItem.make product.id product.name product.selling_price
            quantity).map
          (fun it => { o with items := o.items ++ [(product.id, it)] })

/-- `Order.remove_item(product_id)`: deletes the line item when present;
returns the success flag. No status check appears in the source. -/
def Order.remove_item (o : Order) (product_id : String) : Order × Bool :=
  match lookupItem o.items product_id with
  | some _ => ({ o with items := eraseItem o.items product_id }, true)
  | none => (o, false)

/-- `Order.update_item_quantity(product_id, new_quantity)`: non-positive
quantities delegate to `remove_item`; otherwise the quantity is overwritten
and `total_price` recomputed. No status check appears in the source. -/
def Order.update_item_quantity (o : Order) (product_id : String)
    (new_quantity : ℤ) : Order × Bool :=
  match lookupItem o.items product_id with
  | some it =>
      if new_quantity ≤ 0 then o.remove_item product_id
      else
        let it2 := { it with quantity := new_quantity,
                             total_price := it.unit_price.mul new_quantity }
        ({ o with items := setItem o.items product_id it2 }, true)
  | none => (o, false)

/-- `Order.get_item_count`: total unit count over all line items. -/
def Order.get_item_count (o : Order) : ℤ :=
  (o.items.map (fun e => e.2.quantity)).sum

/-- `Order.change_status`: legal-transition check, then update. -/
def Order.change_status (o : Order) (new_status : OrderStatus) :
    Except String Order :=
  if OrderStatus.can_transition o.status new_status then
    Except.ok { o with status := new_status }
  else
    Except.error "Cannot change status"

/-- `Order.can_be_modified`: `status in [DRAFT, PENDING]`. -/
def Order.can_be_modified (o : Order) : Bool :=
  o.status ∈ [OrderStatus.DRAFT, OrderStatus.PENDING]

/-- The `for item in self._items.values(): subtotal = subtotal + item.calculate_total()`
loop of `Order.calculate_subtotal`, with the accumulator explicit. -/
def subtotalLoop : List (String × OrderItem) → Money → Except String Money
  | [], acc => Except.ok acc
  | (_, it) :: rest, acc =>
      match acc.add it.calculate_total with
      | Except.ok acc2 => subtotalLoop rest acc2
      | Except.error e => Except.error e

/-- `Order.calculate_subtotal`: fold starting from `Money(0)` (currency
defaulting to "USD"). -/
def Order.calculate_subtotal (o : Order) : Except String Money :=
  subtotalLoop o.items (Money.mk 0 "USD")

/-- `Order.calculate_tax(tax_rate)`: range check, then
`Money(subtotal.amount * tax_rate)` in the default currency. -/
def Order.calculate_tax (o : Order) (tax_rate : ℚ) : Except String Money :=
  if ¬ (0 ≤ tax_rate ∧ tax_rate ≤ 1) then
    Except.error "Tax rate must be between 0 and 1"
  else
    (o.calculate_subtotal).map
      (fun st => Money.mk (st.amount * tax_rate) "USD")

/-- `Order.calculate_shipping_cost(base_cost=Money(10))`: 0 for an empty
order, else `base_cost + Money(1 * item_count)`. -/
def Order.calculate_shipping_cost (o : Order) (base_cost : Money) :
    Except String Money :=
  if o.get_item_count = 0 then Except.ok (Money.mk 0 "USD")
  else base_cost.add (Money.mk (1 * (o.get_item_count : ℚ)) "USD")

/-- `Order.calculate_discount(discount_percentage)`: range check, then
`Money(subtotal.amount * (pct / 100))` in the default currency. -/
def Order.calculate_discount (o : Order) (discount_percentage : ℚ) :
    Except String Money :=
  if ¬ (0 ≤ discount_percentage ∧ discount_percentage ≤ 100) then
    Except.error "Discount percentage must be between 0 and 100"
  else
    (o.calculate_subtotal).map
      (fun st => Money.mk (st.amount * (discount_percentage / 100)) "USD")

/-- `Order.calculate_total(tax_rate=0.1, shipping_cost=None, discount_percentage=0)`:
subtotal + tax + shipping − discount, clamped at zero, in the default
currency. `shipping_cost = none` models the `None` default branch of
`shipping_cost or self.calculate_shipping_cost()` (a `Money` value is always
truthy). -/
def Order.calculate_total (o : Order) (tax_rate : ℚ)
    (shipping_cost : Option Money) (discount_percentage : ℚ) :
    Except String Money :=
  match o.calculate_subtotal with
  | Except.error e => Except.error e
  | Except.ok subtotal =>
    match o.calculate_tax tax_rate with
    | Except.error e => Except.error e
    | Except.ok tax =>
      match (match shipping_cost with
             | some m => Except.ok m
             | none => o.calculate_shipping_cost (Money.mk 10 "USD")) with
      | Except.error e => Except.error e
      | Except.ok shipping =>
        match o.calculate_discount discount_percentage with
        | Except.error e => Except.error e
        | Except.ok discount =>
          let total_amount :=
            subtotal.amount + tax.amount + shipping.amount - discount.amount
          Except.ok
            (Money.mk (if total_amount < 0 then 0 else total_amount) "USD")

-- ---------- Concrete sample values used by witnesses ----------

deriving instance DecidableEq for Except

/-- Sample valid product: `Product("PROD-1", "Widget", 5, 10, qty 5)`. -/
def exProduct : Product :=
  Product.mk "PROD-1" "Widget" (Money.mk 5 "USD") (Money.mk 10 "USD") 5 []

/-- Sample valid product with quantity 100. -/
def exProductC3 : Product :=
  Product.mk "PROD-1" "Widget" (Money.mk 5 "USD") (Money.mk 10 "USD") 100 []

/-- The spec scenario product: purchase 100, selling 150, quantity 25, one
attached observer (token 7). -/
def exProductStocked : Product :=
  Product.mk "PROD-1" "Widget" (Money.mk 100 "USD") (Money.mk 150 "USD") 25 [7]

/-- Sample order in `DRAFT` with no items. -/
def exOrderDraft : Order :=
  Order.mk "ORD-1" "Alice" "a@example.com" OrderStatus.DRAFT [] ""

/-- Sample order in `CONFIRMED` with no items. -/
def exOrderConfirmed : Order :=
  Order.mk "ORD-1" "Alice" "a@example.com" OrderStatus.CONFIRMED [] ""

/-- Sample order holding one USD line item (2 units at 10). -/
def exOrderWithItem : Order :=
  Order.mk "ORD-2" "Alice" "a@example.com" OrderStatus.DRAFT
    [("PROD-1", OrderItem.mk "PROD-1" "Widget" (Money.mk 10 "USD") 2
        (Money.mk 20 "USD"))] ""

/-- Sample order holding one EUR line item. -/
def exOrderEUR : Order :=
  Order.mk "ORD-3" "Alice" "a@example.com" OrderStatus.DRAFT
    [("P9", OrderItem.mk "P9" "Gizmo" (Money.mk 4 "EUR") 1 (Money.mk 4 "EUR"))]
    ""

/-- The spec scenario pricing strategy: rate 0.1, minimum quantity 10. -/
def bulkExample : BulkDiscountPricing := BulkDiscountPricing.mk (1/10) 10

-- ---------- Theorems ----------

/-- The code transition table equals the spec transition graph (64 cases). -/
lemma can_transition_iff_spec_edge (s1 s2 : OrderStatus) :
    OrderStatus.can_transition s1 s2 = true ↔ (s1, s2) ∈ specTransitionEdges := by
  revert s1 s2; decide

/-- Claim C1: `change_status(new)` succeeds from current status `s` exactly
when `s→new` is an edge of the spec transition graph (so `CANCELLED` and
`REFUNDED`, having no outgoing edges, admit no successful call); otherwise it
raises and the order is unchanged (the embedding returns only an error). -/
theorem change_status_matches_transition_graph (o : Order) (s2 : OrderStatus) :
    ((∃ o2, o.change_status s2 = Except.ok o2 ∧ o2.status = s2 ∧
        o2.items = o.items) ↔ (o.status, s2) ∈ specTransitionEdges) ∧
    ((o.status, s2) ∉ specTransitionEdges →
      ∃ msg, o.change_status s2 = Except.error msg) := by
  have hiff := can_transition_iff_spec_edge o.status s2
  unfold Order.change_status
  by_cases h : OrderStatus.can_transition o.status s2 = true
  · rw [if_pos h]
    refine ⟨⟨fun _ => hiff.mp h, fun _ => ⟨{ o with status := s2 }, rfl, rfl, rfl⟩⟩, ?_⟩
    intro hmem
    exact absurd (hiff.mp h) hmem
  · rw [if_neg h]
    refine ⟨⟨fun hex => ?_, fun hmem => absurd (hiff.mpr hmem) h⟩, fun _ => ⟨_, rfl⟩⟩
    obtain ⟨o2, ho2, -, -⟩ := hex
    exact Except.noConfusion ho2

/-- Witness for C1: from `DRAFT`, jumping straight to `DELIVERED` is rejected. -/
theorem change_status_matches_transition_graph_witness :
    ∃ msg, exOrderDraft.change_status OrderStatus.DELIVERED = Except.error msg :=
  (change_status_matches_transition_graph exOrderDraft OrderStatus.DELIVERED).2
    (by decide)

/-- Claim C7: with equal currencies, `(m1 + m2) - m2 == m1` and `m1 * 1 == m1`. -/
theorem money_add_sub_roundtrip (m1 m2 : Money) (h : m1.currency = m2.currency) :
    (m1.add m2).bind (fun m3 => m3.sub m2) = Except.ok m1 ∧ m1.mul 1 = m1 := by
  obtain ⟨a1, c1⟩ := m1
  obtain ⟨a2, c2⟩ := m2
  simp only [Money.currency] at h
  subst h
  constructor
  · simp [Money.add, Money.sub, Except.bind]
  · simp [Money.mul]

/-- Witness for C7 at `USD 3` and `USD 5`. -/
theorem money_add_sub_roundtrip_witness :
    ((Money.mk 3 "USD").add (Money.mk 5 "USD")).bind
      (fun m3 => m3.sub (Money.mk 5 "USD")) = Except.ok (Money.mk 3 "USD") ∧
    (Money.mk 3 "USD").mul 1 = Money.mk 3 "USD" :=
  money_add_sub_roundtrip (Money.mk 3 "USD") (Money.mk 5 "USD") rfl

/-- Claim C8: mixed-currency addition and subtraction raise; division by 0
raises; division by a non-zero integer and multiplication by any integer
succeed (multiplication is total). -/
theorem money_mismatch_and_divzero (m1 m2 : Money) (k : ℤ)
    (h : m1.currency ≠ m2.currency) :
    (∃ e, m1.add m2 = Except.error e) ∧
    (∃ e, m1.sub m2 = Except.error e) ∧
    (∃ e, m1.div 0 = Except.error e) ∧
    (k ≠ 0 → m1.div k = Except.ok (Money.mk (m1.amount / (k : ℚ)) m1.currency)) ∧
    m1.mul k = Money.mk (m1.amount * (k : ℚ)) m1.currency := by
  refine ⟨?_, ?_, ?_, fun hk => ?_, rfl⟩
  · unfold Money.add
    rw [if_pos h]
    exact ⟨_, rfl⟩
  · unfold Money.sub
    rw [if_pos h]
    exact ⟨_, rfl⟩
  · unfold Money.div
    rw [if_pos rfl]
    exact ⟨_, rfl⟩
  · unfold Money.div
    rw [if_neg hk]

/-- Witness for C8 at `USD 3`, `EUR 5`, divisor 3. -/
theorem money_mismatch_and_divzero_witness :
    (∃ e, (Money.mk 3 "USD").add (Money.mk 5 "EUR") = Except.error e) ∧
    (Money.mk 3 "USD").div 3 =
      Except.ok (Money.mk ((Money.mk 3 "USD").amount / ((3 : ℤ) : ℚ)) "USD") :=
  ⟨(money_mismatch_and_divzero (Money.mk 3 "USD") (Money.mk 5 "EUR") 3
      (by decide)).1,
   (money_mismatch_and_divzero (Money.mk 3 "USD") (Money.mk 5 "EUR") 3
      (by decide)).2.2.2.1 (by decide)⟩

/-- Claim C9: bulk pricing charges `price*qty*(1-rate)` at or above the
minimum quantity and `price*qty` below it; the strategy is a pure function of
its two stored parameters, so repeated calls agree; the spec scenario values
450 and 250 are reproduced. -/
theorem bulk_discount_total (s : BulkDiscountPricing) (price : ℚ) (qty : ℤ) :
    (s.min_quantity ≤ qty →
      s.calculate_total price qty = price * (qty : ℚ) * (1 - s.discount_rate)) ∧
    (qty < s.min_quantity →
      s.calculate_total price qty = price * (qty : ℚ)) ∧
    bulkExample.calculate_total 50 10 = 450 ∧
    bulkExample.calculate_total 50 5 = 250 := by
  refine ⟨fun h => ?_, fun h => ?_, ?_, ?_⟩
  · rw [BulkDiscountPricing.calculate_total, if_pos h]
  · rw [BulkDiscountPricing.calculate_total, if_neg (not_le.mpr h)]
  · norm_num [BulkDiscountPricing.calculate_total, bulkExample]
  · norm_num [BulkDiscountPricing.calculate_total, bulkExample]

/-- Witness for C9: the discount branch applies at quantity 10. -/
theorem bulk_discount_total_witness :
    bulkExample.calculate_total 50 10 =
      50 * ((10 : ℤ) : ℚ) * (1 - bulkExample.discount_rate) :=
  (bulk_discount_total bulkExample 50 10).1 (by decide)

/-- Claim C4: decreasing beyond the current quantity raises; negative amounts
raise for both mutators (leaving the state untouched, as raising produces no
new state); a successful `increase_quantity(a)` followed by
`decrease_quantity(a)` restores the original quantity. -/
theorem quantity_mutation_bounds (p : Product) (a : ℤ) :
    (0 ≤ a → p.quantity < a → ∃ e, p.decrease_quantity a = Except.error e) ∧
    (a < 0 → (∃ e, p.increase_quantity a = Except.error e) ∧
      ∃ e, p.decrease_quantity a = Except.error e) ∧
    (0 ≤ p.quantity → ∀ r, p.increase_quantity a = Except.ok r →
      ∃ r2, r.1.decrease_quantity a = Except.ok r2 ∧
        r2.1.quantity = p.quantity) := by
  refine ⟨fun ha hlt => ?_, fun ha => ⟨?_, ?_⟩, fun hq r hr => ?_⟩
  · unfold Product.decrease_quantity
    rw [if_neg (by omega), if_pos (by omega)]
    exact ⟨_, rfl⟩
  · unfold Product.increase_quantity
    rw [if_pos ha]
    exact ⟨_, rfl⟩
  · unfold Product.decrease_quantity
    rw [if_pos ha]
    exact ⟨_, rfl⟩
  · unfold Product.increase_quantity at hr
    split_ifs at hr with h1 h2
    injection hr with hr
    subst hr
    unfold Product.decrease_quantity
    rw [if_neg h1, if_neg (by simp only []; omega)]
    exact ⟨_, rfl, by simp only []; omega⟩

/-- Witness for C4 at the quantity-5 sample product, amounts 7 and 3. -/
theorem quantity_mutation_bounds_witness :
    (∃ e, exProduct.decrease_quantity 7 = Except.error e) ∧
    ∃ r2, (Product.mk "PROD-1" "Widget" (Money.mk 5 "USD") (Money.mk 10 "USD")
        8 []).decrease_quantity 3 = Except.ok r2 ∧
      r2.1.quantity = exProduct.quantity := by
  constructor
  · exact (quantity_mutation_bounds exProduct 7).1 (by decide) (by decide)
  · exact (quantity_mutation_bounds exProduct 3).2.2 (by decide)
      (Product.mk "PROD-1" "Widget" (Money.mk 5 "USD") (Money.mk 10 "USD") 8 [],
        (Product.mk "PROD-1" "Widget" (Money.mk 5 "USD") (Money.mk 10 "USD")
          8 []).notify_observers)
      rfl

/-- Characterization of `_notify_observers` on an arbitrary product state. -/
lemma notify_observers_spec (p : Product) :
    (p.quantity ≤ 10 → p.notify_observers =
      p.observers.map (fun ob => (ob, p.id, p.name, p.quantity, (10 : ℤ)))) ∧
    (10 < p.quantity → p.notify_observers = []) ∧
    (∀ ob, ob ∉ p.observers →
      ∀ pid nm q t, (ob, pid, nm, q, t) ∉ p.notify_observers) := by
  refine ⟨fun h => ?_, fun h => ?_, fun ob hob pid nm q t hmem => ?_⟩
  · unfold Product.notify_observers Product.is_low_stock Product.MIN_STOCK_LEVEL
    rw [if_pos (by simpa using h)]
  · unfold Product.notify_observers Product.is_low_stock Product.MIN_STOCK_LEVEL
    rw [if_neg (by simp; omega)]
  · unfold Product.notify_observers Product.is_low_stock
      Product.MIN_STOCK_LEVEL at hmem
    split_ifs at hmem with hlow
    · obtain ⟨ob2, hob2, heq⟩ := List.mem_map.mp hmem
      obtain ⟨rfl, -⟩ := Prod.mk.injEq .. ▸ heq
      · exact hob hob2
    · exact List.not_mem_nil _ hmem

/-- Claim C6: after a successful quantity mutation, if the new quantity is at
most `MIN_STOCK_LEVEL` (10), each currently attached observer receives exactly
the one `update(id, name, new_quantity, 10)` call, in attachment order; above
10 nobody is notified; unattached (e.g. detached) observers never appear in
the emitted calls. -/
theorem low_stock_notifications (p : Product) (a : ℤ)
    (r : Product × List StockAlert)
    (h : p.increase_quantity a = Except.ok r ∨
      p.decrease_quantity a = Except.ok r) :
    r.1.observers = p.observers ∧
    (r.1.quantity ≤ 10 → r.2 =
      p.observers.map (fun ob => (ob, p.id, p.name, r.1.quantity, (10 : ℤ)))) ∧
    (10 < r.1.quantity → r.2 = []) ∧
    (∀ ob, ob ∉ p.observers →
      ∀ pid nm q t, (ob, pid, nm, q, t) ∉ r.2) := by
  have hr : ∃ p2 : Product, p2.observers = p.observers ∧ p2.id = p.id ∧
      p2.name = p.name ∧ r = (p2, p2.notify_observers) := by
    rcases h with h | h
    · unfold Product.increase_quantity at h
      split_ifs at h
      injection h with h
      exact ⟨{ p with quantity := p.quantity + a }, rfl, rfl, rfl, h.symm⟩
    · unfold Product.decrease_quantity at h
      split_ifs at h
      injection h with h
      exact ⟨{ p with quantity := p.quantity - a }, rfl, rfl, rfl, h.symm⟩
  obtain ⟨p2, hobs, hid, hnm, rfl⟩ := hr
  have hs := notify_observers_spec p2
  refine ⟨hobs, fun hq => ?_, fun hq => hs.2.1 hq, fun ob hob pid nm q t => ?_⟩
  · rw [hs.1 hq, hobs, hid, hnm]
  · exact hs.2.2 ob (hobs ▸ hob) pid nm q t

/-- Witness for C6: the spec scenario — quantity 25, one attached observer,
`decrease_quantity(20)` emits exactly one `update` call `(7, id, name, 5, 10)`. -/
theorem low_stock_notifications_witness :
    ∃ r, exProductStocked.decrease_quantity 20 = Except.ok r ∧
      r.2 = [(7, "PROD-1", "Widget", 5, 10)] := by
  have hd : exProductStocked.decrease_quantity 20 = Except.ok
      ({ exProductStocked with quantity := 5 },
       [(7, "PROD-1", "Widget", 5, 10)]) := by rfl
  have h := low_stock_notifications exProductStocked 20 _ (Or.inr hd)
  refine ⟨_, hd, ?_⟩
  rw [h.2.1 (by decide)]
  rfl

/-- `_validate` passes exactly when all five spec invariants hold. -/
lemma validate_ok_iff (p : Product) :
    p.validate = Except.ok () ↔
      (2 ≤ p.name.length ∧ 0 ≤ p.quantity ∧ p.quantity ≤ 1000 ∧
       0 < p.selling_price.amount ∧ 0 < p.purchase_price.amount ∧
       p.purchase_price.amount ≤ p.selling_price.amount) := by
  unfold Product.validate Product.MAX_STOCK_LEVEL
  constructor
  · intro h
    split_ifs at h with h1 h2 h3 h4 h5 h6
    push_neg at h1 h2 h3 h4 h5 h6
    exact ⟨h1, h2, h3, h4, h5, h6⟩
  · rintro ⟨c1, c2, c3, c4, c5, c6⟩
    rw [if_neg (by omega), if_neg (by omega), if_neg (by omega),
      if_neg (by linarith), if_neg (by linarith), if_neg (by linarith)]

/-- Counterexample to C3 as stated: a valid product (purchase 5, selling 10)
accepts `purchase_price = Money(20)` — the setter checks only positivity — and
the mutated product violates `selling_price >= purchase_price`. -/
theorem purchase_price_setter_breaks_invariant :
    exProductC3.validate = Except.ok () ∧
    ∃ p2, exProductC3.set_purchase_price (Money.mk 20 "USD") = Except.ok p2 ∧
      p2.selling_price.amount < p2.purchase_price.amount ∧
      p2.validate ≠ Except.ok () := by
  refine ⟨by decide, { exProductC3 with purchase_price := Money.mk 20 "USD" },
    by decide, by decide, by decide⟩

/-- Claim C3 amended: construction and every mutator except the
`purchase_price` setter preserve all five invariants; the `purchase_price`
setter enforces only `purchase_price > 0` (keeping the other four conditions,
which do not mention it) and can break `selling_price >= purchase_price`. -/
theorem product_mutators_preserve_invariants (p : Product)
    (hv : p.validate = Except.ok ()) :
    (∀ nm p2, p.set_name nm = Except.ok p2 → p2.validate = Except.ok ()) ∧
    (∀ v p2, p.set_selling_price v = Except.ok p2 →
      p2.validate = Except.ok ()) ∧
    (∀ a r, p.increase_quantity a = Except.ok r →
      r.1.validate = Except.ok ()) ∧
    (∀ a r, p.decrease_quantity a = Except.ok r →
      r.1.validate = Except.ok ()) ∧
    (∀ v p2, p.set_purchase_price v = Except.ok p2 →
      2 ≤ p2.name.length ∧ 0 ≤ p2.quantity ∧ p2.quantity ≤ 1000 ∧
      0 < p2.selling_price.amount ∧ 0 < p2.purchase_price.amount) ∧
    (∀ id nm pp sp q p2, Product.construct id nm pp sp q = Except.ok p2 →
      p2.validate = Except.ok ()) := by
  rw [validate_ok_iff] at hv
  obtain ⟨c1, c2, c3, c4, c5, c6⟩ := hv
  refine ⟨fun nm p2 h => ?_, fun v p2 h => ?_, fun a r h => ?_,
    fun a r h => ?_, fun v p2 h => ?_, fun id nm pp sp q p2 h => ?_⟩
  · unfold Product.set_name at h
    split_ifs at h with h1
    injection h with h
    subst h
    rw [validate_ok_iff]
    push_neg at h1
    exact ⟨h1, c2, c3, c4, c5, c6⟩
  · unfold Product.set_selling_price at h
    split_ifs at h with h1 h2
    injection h with h
    subst h
    rw [validate_ok_iff]
    exact ⟨c1, c2, c3, by push_neg at h1; exact by linarith, c5,
      by push_neg at h2; exact h2⟩
  · unfold Product.increase_quantity Product.MAX_STOCK_LEVEL at h
    split_ifs at h with h1 h2
    injection h with h
    subst h
    rw [validate_ok_iff]
    exact ⟨c1, by show (0 : ℤ) ≤ p.quantity + a; omega,
      by show p.quantity + a ≤ 1000; omega, c4, c5, c6⟩
  · unfold Product.decrease_quantity at h
    split_ifs at h with h1 h2
    injection h with h
    subst h
    rw [validate_ok_iff]
    exact ⟨c1, by show (0 : ℤ) ≤ p.quantity - a; omega,
      by show p.quantity - a ≤ 1000; omega, c4, c5, c6⟩
  · unfold Product.set_purchase_price at h
    split_ifs at h with h1
    injection h with h
    subst h
    exact ⟨c1, c2, c3, c4, by push_neg at h1; exact h1⟩
  · unfold Product.construct at h
    cases hv0 : (Product.mk id nm pp sp q []).validate with
    | error e =>
        rw [hv0] at h
        exact Except.noConfusion h
    | ok u =>
        rw [hv0] at h
        simp only [Except.map] at h
        injection h with h
        subst h
        cases u
        exact hv0

/-- Witness for C3 amended: renaming the sample valid product keeps it valid. -/
theorem product_mutators_preserve_invariants_witness :
    ({ exProductC3 with name := "Gadget" } : Product).validate =
      Except.ok () :=
  (product_mutators_preserve_invariants exProductC3 (by decide)).1 "Gadget"
    { exProductC3 with name := "Gadget" } (by decide)

/-- Counterexample to C2 as stated: on a `CONFIRMED` order (not modifiable
per `can_be_modified`), `add_item` nevertheless succeeds and changes the
items mapping — none of the item mutators consults the status, and no
StateError exists in the code. -/
theorem item_mutation_ignores_status_counterexample :
    exOrderConfirmed.can_be_modified = false ∧
    ∃ o2, exOrderConfirmed.add_item exProduct 1 = Except.ok o2 ∧
      o2.items ≠ exOrderConfirmed.items := by
  refine ⟨by decide, { exOrderConfirmed with items :=
    [("PROD-1", OrderItem.mk "PROD-1" "Widget" (Money.mk 10 "USD") 1
        ((Money.mk 10 "USD").mul 1))] }, by rfl, by simp [exOrderConfirmed]⟩

/-- Claim C2 amended: `can_be_modified` is true exactly while status is
`DRAFT` or `PENDING`, but `add_item`, `remove_item` and
`update_item_quantity` never consult the status: their outcome (success,
failure, and resulting items) is identical under every status, so item
mutation is not restricted to `DRAFT`/`PENDING` states. -/
theorem item_mutation_ignores_status (o : Order) (s : OrderStatus)
    (p : Product) (q : ℤ) (pid : String) (nq : ℤ) :
    (o.can_be_modified = true ↔
      (o.status = OrderStatus.DRAFT ∨ o.status = OrderStatus.PENDING)) ∧
    ({ o with status := s } : Order).add_item p q =
      (o.add_item p q).map (fun o2 => { o2 with status := s }) ∧
    ({ o with status := s } : Order).remove_item pid =
      ({ (o.remove_item pid).1 with status := s }, (o.remove_item pid).2) ∧
    ({ o with status := s } : Order).update_item_quantity pid nq =
      ({ (o.update_item_quantity pid nq).1 with status := s },
       (o.update_item_quantity pid nq).2) := by
  obtain ⟨i, n, e, st, its, nt⟩ := o
  have hrem : ∀ pid2, (Order.mk i n e s its nt).remove_item pid2 =
      ({ ((Order.mk i n e st its nt).remove_item pid2).1 with status := s },
       ((Order.mk i n e st its nt).remove_item pid2).2) := by
    intro pid2
    unfold Order.remove_item
    dsimp only
    cases lookupItem its pid2 <;> rfl
  refine ⟨?_, ?_, hrem pid, ?_⟩
  · cases st <;> simp [Order.can_be_modified]
  · unfold Order.add_item
    dsimp only
    by_cases hf : (p.can_fulfill_order q : Prop)
    · rw [if_neg (not_not_intro hf), if_neg (not_not_intro hf)]
      cases hl : lookupItem its p.id with
      | some it =>
          dsimp only
          cases it.increase_quantity q <;> rfl
      | none =>
          dsimp only
          cases OrderItem.make p.id p.name p.selling_price q <;> rfl
    · rw [if_pos hf, if_pos hf]
      rfl
  · unfold Order.update_item_quantity
    dsimp only
    cases hl : lookupItem its pid with
    | some it =>
        dsimp only
        by_cases hq : nq ≤ 0
        · rw [if_pos hq, if_pos hq]
          exact hrem pid
        · rw [if_neg hq, if_neg hq]
    | none => rfl

/-- The negative-total clamp of `calculate_total` is a `max` with zero. -/
lemma clampZero (t : ℚ) : (if t < 0 then 0 else t) = max 0 t := by
  rcases lt_or_le t 0 with h | h
  · rw [if_pos h, max_eq_left h.le]
  · rw [if_neg (not_lt.mpr h), max_eq_right h]

/-- Claim C5: with tax rate `r ∈ [0,1]`, discount `d ∈ [0,100]`, and subtotal
`S`, `calculate_total` returns `max(0, S + S*r + C - S*d/100)` for an explicit
shipping cost `C`; with the argument omitted, the shipping term is the
computed cost: 0 when the total item quantity is 0 (in particular when there
are no items), else base 10 plus 1 per unit. -/
theorem calculate_total_formula (o : Order) (r : ℚ) (c : Money) (d : ℚ)
    (st : Money) (hr : 0 ≤ r) (hr2 : r ≤ 1) (hd : 0 ≤ d) (hd2 : d ≤ 100)
    (hst : o.calculate_subtotal = Except.ok st) :
    o.calculate_total r (some c) d =
      Except.ok (Money.mk
        (max 0 (st.amount + st.amount * r + c.amount - st.amount * d / 100))
        "USD") ∧
    o.calculate_total r none d =
      Except.ok (Money.mk
        (max 0 (st.amount + st.amount * r +
          (if o.get_item_count = 0 then 0 else 10 + (o.get_item_count : ℚ)) -
          st.amount * d / 100)) "USD") ∧
    (o.items = [] → o.get_item_count = 0) := by
  have htax : o.calculate_tax r = Except.ok (Money.mk (st.amount * r) "USD") := by
    unfold Order.calculate_tax
    rw [if_neg (not_not_intro ⟨hr, hr2⟩), hst]
    rfl
  have hdis : o.calculate_discount d =
      Except.ok (Money.mk (st.amount * (d / 100)) "USD") := by
    unfold Order.calculate_discount
    rw [if_neg (not_not_intro ⟨hd, hd2⟩), hst]
    rfl
  have hship : o.calculate_shipping_cost (Money.mk 10 "USD") =
      Except.ok (Money.mk
        (if o.get_item_count = 0 then 0 else 10 + (o.get_item_count : ℚ))
        "USD") := by
    unfold Order.calculate_shipping_cost
    by_cases hc : o.get_item_count = 0
    · rw [if_pos hc, if_pos hc]
    · rw [if_neg hc, if_neg hc]
      unfold Money.add
      rw [if_neg (not_not_intro rfl)]
      norm_num
  refine ⟨?_, ?_, fun hemp => by simp [Order.get_item_count, hemp]⟩
  · unfold Order.calculate_total
    rw [hst, htax, hdis]
    show Except.ok (Money.mk _ "USD") = _
    rw [clampZero]
    congr 2
    ring_nf
  · unfold Order.calculate_total
    rw [hst, htax, hdis, hship]
    show Except.ok (Money.mk _ "USD") = _
    rw [clampZero]
    congr 2
    ring_nf

/-- Witness for C5 on a one-item order (2 units at USD 10, subtotal 20) with
tax 0.1, explicit shipping 5, discount 50. -/
theorem calculate_total_formula_witness :
    exOrderWithItem.calculate_total (1/10) (some (Money.mk 5 "USD")) 50 =
      Except.ok (Money.mk (max 0 (20 + 20 * (1/10) + 5 - 20 * 50 / 100))
        "USD") :=
  (calculate_total_formula exOrderWithItem (1/10) (Money.mk 5 "USD") 50
    (Money.mk 20 "USD") (by norm_num) (by norm_num) (by norm_num)
    (by norm_num)
    (by simp [Order.calculate_subtotal, exOrderWithItem, subtotalLoop,
          OrderItem.calculate_total, Money.add, Money.mul]
        norm_num)).1

/-- A successful subtotal fold keeps the accumulator currency. -/
lemma subtotalLoop_currency (items : List (String × OrderItem)) :
    ∀ (acc m : Money), subtotalLoop items acc = Except.ok m →
      m.currency = acc.currency := by
  induction items with
  | nil =>
      intro acc m h
      unfold subtotalLoop at h
      injection h with h
      rw [← h]
  | cons hd tl ih =>
      intro acc m h
      unfold subtotalLoop at h
      cases hadd : acc.add hd.2.calculate_total with
      | error e =>
          rw [hadd] at h
          exact Except.noConfusion h
      | ok acc2 =>
          rw [hadd] at h
          have hcur : acc2.currency = acc.currency := by
            unfold Money.add at hadd
            split_ifs at hadd
            injection hadd with hadd
            rw [← hadd]
          rw [ih acc2 m h, hcur]

/-- The subtotal fold raises as soon as a line item's currency differs from
the accumulator currency "USD". -/
lemma subtotalLoop_mismatch (items : List (String × OrderItem)) :
    ∀ acc : Money, acc.currency = "USD" →
      (∃ pid it, (pid, it) ∈ items ∧ it.unit_price.currency ≠ "USD") →
      ∃ e, subtotalLoop items acc = Except.error e := by
  induction items with
  | nil =>
      rintro acc - ⟨pid, it, hmem, -⟩
      exact absurd hmem (List.not_mem_nil _)
  | cons hd tl ih =>
      rintro acc hacc ⟨pid, it, hmem, hne⟩
      unfold subtotalLoop
      have htotcur : hd.2.calculate_total.currency = hd.2.unit_price.currency :=
        rfl
      by_cases hv : hd.2.unit_price.currency = "USD"
      · have hadd : acc.add hd.2.calculate_total =
            Except.ok (Money.mk (acc.amount + hd.2.calculate_total.amount)
              acc.currency) := by
          unfold Money.add
          rw [if_neg (not_not_intro (by rw [hacc, htotcur, hv]))]
        rw [hadd]
        rcases List.mem_cons.mp hmem with heq | htl
        · exfalso
          apply hne
          have h2 : it = hd.2 := congrArg Prod.snd heq
          rw [h2, hv]
        · exact ih
            (Money.mk (acc.amount + hd.2.calculate_total.amount) acc.currency)
            hacc ⟨pid, it, htl, hne⟩
      · have hadd : acc.add hd.2.calculate_total =
            Except.error "Cannot add money with different currencies" := by
          unfold Money.add
          rw [if_pos (by rw [hacc, htotcur]; exact fun h2 => hv h2.symm)]
        rw [hadd]
        exact ⟨_, rfl⟩

/-- Claim C10: all monetary aggregates of `Order` are denominated in the
default currency "USD" — `calculate_subtotal` starts from `Money(0, "USD")`,
so an order holding any line item in another currency makes
`calculate_subtotal` (and with it `calculate_tax`, `calculate_discount` and
`calculate_total`) raise a currency-mismatch error; every successful result
of the four aggregates carries currency "USD". -/
theorem order_money_aggregates_usd (o : Order) :
    ((∃ pid it, (pid, it) ∈ o.items ∧ it.unit_price.currency ≠ "USD") →
      (∃ e, o.calculate_subtotal = Except.error e) ∧
      (∀ r, ∃ e, o.calculate_tax r = Except.error e) ∧
      (∀ d, ∃ e, o.calculate_discount d = Except.error e) ∧
      (∀ r sc d, ∃ e, o.calculate_total r sc d = Except.error e)) ∧
    (∀ m, o.calculate_subtotal = Except.ok m → m.currency = "USD") ∧
    (∀ r m, o.calculate_tax r = Except.ok m → m.currency = "USD") ∧
    (∀ d m, o.calculate_discount d = Except.ok m → m.currency = "USD") ∧
    (∀ r sc d m, o.calculate_total r sc d = Except.ok m →
      m.currency = "USD") := by
  constructor
  · intro hbad
    obtain ⟨e0, he0⟩ :=
      subtotalLoop_mismatch o.items (Money.mk 0 "USD") rfl hbad
    have hsub : o.calculate_subtotal = Except.error e0 := he0
    refine ⟨⟨e0, hsub⟩, fun r => ?_, fun d => ?_, fun r sc d => ?_⟩
    · unfold Order.calculate_tax
      by_cases hrange : (0 ≤ r ∧ r ≤ 1)
      · rw [if_neg (not_not_intro hrange), hsub]
        exact ⟨_, rfl⟩
      · rw [if_pos hrange]
        exact ⟨_, rfl⟩
    · unfold Order.calculate_discount
      by_cases hrange : (0 ≤ d ∧ d ≤ 100)
      · rw [if_neg (not_not_intro hrange), hsub]
        exact ⟨_, rfl⟩
      · rw [if_pos hrange]
        exact ⟨_, rfl⟩
    · unfold Order.calculate_total
      rw [hsub]
      exact ⟨_, rfl⟩
  · refine ⟨fun m h => subtotalLoop_currency o.items _ m h, fun r m h => ?_,
      fun d m h => ?_, fun r sc d m h => ?_⟩
    · unfold Order.calculate_tax at h
      split_ifs at h
      cases hsub : o.calculate_subtotal with
      | error e =>
          rw [hsub] at h
          exact Except.noConfusion h
      | ok st =>
          rw [hsub] at h
          injection h with h
          rw [← h]
    · unfold Order.calculate_discount at h
      split_ifs at h
      cases hsub : o.calculate_subtotal with
      | error e =>
          rw [hsub] at h
          exact Except.noConfusion h
      | ok st =>
          rw [hsub] at h
          injection h with h
          rw [← h]
    · unfold Order.calculate_total at h
      split at h
      · exact Except.noConfusion h
      · split at h
        · exact Except.noConfusion h
        · split at h
          · exact Except.noConfusion h
          · split at h
            · exact Except.noConfusion h
            · injection h with h
              rw [← h]

/-- Witness for C10: the one-EUR-item sample order's subtotal raises. -/
theorem order_money_aggregates_usd_witness :
    ∃ e, exOrderEUR.calculate_subtotal = Except.error e :=
  ((order_money_aggregates_usd exOrderEUR).1
    ⟨"P9", OrderItem.mk "P9" "Gizmo" (Money.mk 4 "EUR") 1 (Money.mk 4 "EUR"),
      by simp [exOrderEUR], by decide⟩).1

/-- Witness for C2 amended: removing from a `SHIPPED`-status copy of the
sample order behaves exactly as on the original, status aside. -/
theorem item_mutation_ignores_status_witness :
    ({ exOrderConfirmed with status := OrderStatus.SHIPPED } : Order).remove_item
        "PROD-1" =
      ({ (exOrderConfirmed.remove_item "PROD-1").1 with
          status := OrderStatus.SHIPPED },
        (exOrderConfirmed.remove_item "PROD-1").2) :=
  (item_mutation_ignores_status exOrderConfirmed OrderStatus.SHIPPED exProduct 1
    "PROD-1" 2).2.2.1
